import Mathlib

/-!
Verification of the Pixeltable batch/job subsystem specification against the
`a24z/pixeltable` sources.  The TypeScript SDK (`js-sdk/src/index.ts`) is
embedded directly.  The server-side Batch Executor, Job Registry and Webhook
Dispatcher exist in this repository only as SDK-side type declarations and API
documents, so their behaviour is modelled from the specification; every such
definition is marked `Modelled from the spec:` in its doc comment.
-/

/-- `JobStatus` from `js-sdk/src/index.ts`:
`'pending' | 'running' | 'completed' | 'failed' | 'cancelled'`. -/
inductive JobStatus
  | pending
  | running
  | completed
  | failed
  | cancelled
deriving DecidableEq

/-- `JobType` from `js-sdk/src/index.ts`. -/
inductive JobType
  | data_import
  | data_export
  | batch_operation
  | media_processing
  | table_recompute
  | custom
deriving DecidableEq

/-- `BatchOperationType` from `js-sdk/src/index.ts`:
`'insert' | 'update' | 'delete' | 'upsert'`. -/
inductive BatchOperationType
  | insert
  | update
  | delete
  | upsert
deriving DecidableEq

/-- Modelled from the spec: the external Table Store collaborator (spec §6),
which is not part of the repository sources.  Tables map names to ordered row
lists; row payloads are abstracted to numeric identifiers. -/
abbrev TableStore := List (String × List Nat)

/-- Modelled from the spec: the error taxonomy (spec §7) restricted to the
errors a single Table Store call can produce (`ValidationError`,
`NotFoundError`). -/
inductive OpError
  | validationError (msg : String)
  | notFoundError (table : String)
deriving DecidableEq

/-- Modelled from the spec: `TransactionAbortError` (spec §7), carrying the
single underlying operation error of an aborted transactional batch. -/
inductive BatchAbort
  | transactionAbortError (inner : OpError)
deriving DecidableEq

namespace TableStore

/-- Modelled from the spec: `insert(table, rows) → outcome|error(NotFound)`
(spec §6). -/
def insertRows (s : TableStore) (t : String) (rows : List Nat) :
    Except OpError TableStore :=
  match s.lookup t with
  | some old => .ok (s.map (fun p => if p.1 = t then (t, old ++ rows) else p))
  | none => .error (.notFoundError t)

/-- Modelled from the spec: `update(table, where, set) → outcome|error`
(spec §6); rows matching the `where` value are replaced by the `set` value. -/
def updateRows (s : TableStore) (t : String) (w v : Nat) :
    Except OpError TableStore :=
  match s.lookup t with
  | some old =>
    .ok (s.map (fun p =>
      if p.1 = t then (t, old.map (fun r => if r = w then v else r)) else p))
  | none => .error (.notFoundError t)

/-- Modelled from the spec: `delete(table, where) → outcome|error` (spec §6);
rows matching the `where` value are removed. -/
def removeRows (s : TableStore) (t : String) (w : Nat) :
    Except OpError TableStore :=
  match s.lookup t with
  | some old =>
    .ok (s.map (fun p => if p.1 = t then (t, old.filter (fun r => r != w)) else p))
  | none => .error (.notFoundError t)

/-- Modelled from the spec: upsert — "Insert or update based on existence"
(docs/API_ADVANCED_FEATURES.md); rows not already present are appended. -/
def upsertRows (s : TableStore) (t : String) (rows : List Nat) :
    Except OpError TableStore :=
  match s.lookup t with
  | some old =>
    .ok (s.map (fun p =>
      if p.1 = t then (t, old ++ rows.filter (fun r => !(old.contains r))) else p))
  | none => .error (.notFoundError t)

end TableStore

/-- `BatchOperation` from `js-sdk/src/index.ts` (`operation`, `table`, `data?`,
`where?`, `set?`).  The reserved field names `where`/`set` are rendered
`whereC`/`setC`; row payloads are abstracted to numeric identifiers, a `where`
clause to the matched row value and `set` to the replacement value. -/
structure BatchOperation where
  operation : BatchOperationType
  table : String
  data : Option (List Nat) := none
  whereC : Option Nat := none
  setC : Option Nat := none
deriving DecidableEq

/-- `BatchRequest` from `js-sdk/src/index.ts`.  The optional boolean flags
(`transaction?`, `continue_on_error?`, `return_results?`) take the JS falsy
reading of `undefined` as their default. -/
structure BatchRequest where
  operations : List BatchOperation
  transaction : Bool := false
  continue_on_error : Bool := false
  return_results : Bool := false
deriving DecidableEq

/-- `BatchResult` from `js-sdk/src/index.ts`.  `errors` entries
(`Array<Record<string, any>>` in the source) are modelled as index/error
pairs; `results` payloads are abstracted to the indices of the operations;
`execution_time_ms` is real time and is fixed to `0` by the embedding. -/
structure BatchResult where
  total_operations : Nat
  successful : Nat
  failed : Nat
  errors : List (Nat × OpError)
  results : Option (List Nat) := none
  execution_time_ms : Nat := 0
deriving DecidableEq

/-- Modelled from the spec: validation and dispatch of one `BatchOperation`
against the Table Store (spec §4.1, §6) — the server-side Batch Executor is
not in the repository sources.  An invalid shape yields a `ValidationError`
without invoking the Table Store (insert/upsert need `data`, update needs
`where` and `set`, delete needs `where`). -/
def applyBatchOp (s : TableStore) (op : BatchOperation) : Except OpError TableStore :=
  match op.operation with
  | .insert =>
    match op.data with
    | some rows => s.insertRows op.table rows
    | none => .error (.validationError "insert requires data")
  | .update =>
    match op.whereC, op.setC with
    | some w, some v => s.updateRows op.table w v
    | _, _ => .error (.validationError "update requires where and set")
  | .delete =>
    match op.whereC with
    | some w => s.removeRows op.table w
    | none => .error (.validationError "delete requires where")
  | .upsert =>
    match op.data with
    | some rows => s.upsertRows op.table rows
    | none => .error (.validationError "upsert requires data")

/-- Modelled from the spec: transactional execution (spec §4.1) — the
operations applied sequentially as one unit; the first failure is reported
with its index (`i` is the index of the first operation of `ops`). -/
def runTxn (ops : List BatchOperation) (s : TableStore) (i : Nat) :
    Except (Nat × OpError) TableStore :=
  match ops with
  | [] => .ok s
  | op :: rest =>
    match applyBatchOp s op with
    | .ok s2 => runTxn rest s2 (i + 1)
    | .error e => .error (i, e)

/-- Modelled from the spec: best-effort execution with
`continue_on_error = true` (spec §4.1) — a failing operation is recorded in
the error list and execution proceeds.  Returns the final store, the success
count and the ordered error list. -/
def runCont (ops : List BatchOperation) (s : TableStore) (i : Nat) :
    TableStore × Nat × List (Nat × OpError) :=
  match ops with
  | [] => (s, 0, [])
  | op :: rest =>
    match applyBatchOp s op with
    | .ok s2 =>
      ((runCont rest s2 (i + 1)).1, (runCont rest s2 (i + 1)).2.1 + 1,
        (runCont rest s2 (i + 1)).2.2)
    | .error e =>
      ((runCont rest s (i + 1)).1, (runCont rest s (i + 1)).2.1,
        (i, e) :: (runCont rest s (i + 1)).2.2)

/-- Modelled from the spec: execution with `continue_on_error = false`
(spec §4.1) — stops immediately at the first failure.  Returns the final
store, the success count and the first failure (index and error), if any. -/
def runHalt (ops : List BatchOperation) (s : TableStore) (i : Nat) :
    TableStore × Nat × Option (Nat × OpError) :=
  match ops with
  | [] => (s, 0, none)
  | op :: rest =>
    match applyBatchOp s op with
    | .ok s2 =>
      ((runHalt rest s2 (i + 1)).1, (runHalt rest s2 (i + 1)).2.1 + 1,
        (runHalt rest s2 (i + 1)).2.2)
    | .error e => (s, 0, some (i, e))

/-- Modelled from the spec: the observable outcome of `POST batch/operations`
(spec §4.1, §7) — the Table Store afterwards, the returned `BatchResult`, the
distinct list of skipped operation indices (listed in the result per §4.1),
and the error thrown to the caller (`TransactionAbortError` on transactional
abort, nothing otherwise). -/
structure ExecOutcome where
  store : TableStore
  result : BatchResult
  skipped : List Nat
  thrown : Option BatchAbort
deriving DecidableEq

/-- Modelled from the spec: `executeBatch(request) → BatchResult` (spec §4.1),
the server-side Batch Executor behind `POST batch/operations`, which is not in
the repository sources. -/
def executeBatch (req : BatchRequest) (s : TableStore) : ExecOutcome :=
  let n := req.operations.length
  if req.transaction then
    match runTxn req.operations s 0 with
    | .ok s2 =>
      { store := s2,
        result := { total_operations := n, successful := n, failed := 0, errors := [],
                    results := if req.return_results then some (List.range n) else none },
        skipped := [],
        thrown := none }
    | .error (i, e) =>
      { store := s,
        result := { total_operations := n, successful := 0, failed := n,
                    errors := [(i, e)] },
        skipped := [],
        thrown := some (.transactionAbortError e) }
  else if req.continue_on_error then
    { store := (runCont req.operations s 0).1,
      result := { total_operations := n, successful := (runCont req.operations s 0).2.1,
                  failed := (runCont req.operations s 0).2.2.length,
                  errors := (runCont req.operations s 0).2.2,
                  results := if req.return_results then some (List.range n) else none },
      skipped := [],
      thrown := none }
  else
    match runHalt req.operations s 0 with
    | (s2, succ, none) =>
      { store := s2,
        result := { total_operations := n, successful := succ, failed := 0, errors := [],
                    results := if req.return_results then some (List.range n) else none },
        skipped := [],
        thrown := none }
    | (s2, succ, some (i, e)) =>
      { store := s2,
        result := { total_operations := n, successful := succ, failed := 1,
                    errors := [(i, e)] },
        skipped := (List.range n).drop (i + 1),
        thrown := none }

theorem runCont_count (ops : List BatchOperation) (s : TableStore) (i : Nat) :
    (runCont ops s i).2.1 + (runCont ops s i).2.2.length = ops.length := by
  induction ops generalizing s i with
  | nil => simp [runCont]
  | cons op rest ih =>
    cases h : applyBatchOp s op with
    | ok s2 =>
      have := ih s2 (i + 1)
      simp only [runCont, h, List.length_cons]
      omega
    | error e =>
      have := ih s (i + 1)
      simp only [runCont, h, List.length_cons]
      omega

theorem runHalt_none (ops : List BatchOperation) (s : TableStore) (i : Nat)
    (h : (runHalt ops s i).2.2 = none) : (runHalt ops s i).2.1 = ops.length := by
  induction ops generalizing s i with
  | nil => simp [runHalt]
  | cons op rest ih =>
    cases hop : applyBatchOp s op with
    | ok s2 =>
      simp only [runHalt, hop] at h ⊢
      have := ih s2 (i + 1) h
      simp [this]
    | error e => simp [runHalt, hop] at h

theorem runHalt_some (ops : List BatchOperation) (s : TableStore) (i j : Nat)
    (e : OpError) (h : (runHalt ops s i).2.2 = some (j, e)) :
    j = i + (runHalt ops s i).2.1 ∧ (runHalt ops s i).2.1 < ops.length ∧
      runTxn (ops.take (runHalt ops s i).2.1) s i = .ok (runHalt ops s i).1 := by
  induction ops generalizing s i with
  | nil => simp [runHalt] at h
  | cons op rest ih =>
    cases hop : applyBatchOp s op with
    | ok s2 =>
      simp only [runHalt, hop] at h ⊢
      obtain ⟨h1, h2, h3⟩ := ih s2 (i + 1) h
      refine ⟨by omega, by simpa using Nat.succ_lt_succ h2, ?_⟩
      simp [List.take_succ_cons, runTxn, hop, h3]
    | error hErr =>
      simp only [runHalt, hop] at h ⊢
      obtain ⟨rfl, rfl⟩ : j = i ∧ e = hErr := by
        constructor <;> simp_all
      simp [runTxn]

/-- A small concrete Table Store holding one table `"t"`, used by the concrete
evaluations below; table `"u"` does not exist. -/
def storeT : TableStore := [("t", [])]

/-- A concrete transactional batch whose second operation references the
nonexistent table `"u"` (cf. spec §8 Scenario B). -/
def reqTxnBad : BatchRequest :=
  { operations :=
      [{ operation := .insert, table := "t", data := some [1] },
       { operation := .insert, table := "u", data := some [2] }],
    transaction := true }

/-- A concrete non-transactional batch with `continue_on_error = false` whose
first operation fails (table `"u"` does not exist). -/
def reqHaltCex : BatchRequest :=
  { operations :=
      [{ operation := .insert, table := "u", data := some [1] },
       { operation := .insert, table := "t", data := some [2] }] }

/-- A concrete non-transactional `continue_on_error = false` batch failing at
index 1 of 3. -/
def reqHalt3 : BatchRequest :=
  { operations :=
      [{ operation := .insert, table := "t", data := some [1] },
       { operation := .insert, table := "u", data := some [2] },
       { operation := .insert, table := "t", data := some [3] }] }

/-- Claim C1: for every `BatchRequest` with `transaction = true` in which some
operation fails, the whole batch is rolled back — the Table Store afterwards
equals the initial store (so either every operation's effect is visible on
success, or none is), the returned `BatchResult` has `successful = 0` and
`failed = total_operations`, and the single underlying error is propagated as
`TransactionAbortError`. -/
theorem txn_batch_all_or_nothing (req : BatchRequest) (s : TableStore) (i : Nat)
    (e : OpError) (ht : req.transaction = true)
    (hf : runTxn req.operations s 0 = .error (i, e)) :
    (executeBatch req s).store = s ∧
    (executeBatch req s).result.successful = 0 ∧
    (executeBatch req s).result.failed = req.operations.length ∧
    (executeBatch req s).result.total_operations = req.operations.length ∧
    (executeBatch req s).thrown = some (.transactionAbortError e) ∧
    ((executeBatch req s).store = s ∨
      runTxn req.operations s 0 = .ok (executeBatch req s).store) := by
  simp [executeBatch, ht, hf]

/-- Concrete instance of `txn_batch_all_or_nothing`: the aborted two-operation
transactional batch `reqTxnBad` leaves `storeT` untouched and reports
`successful = 0`, `failed = 2` with the `TransactionAbortError`. -/
theorem txn_batch_all_or_nothing_witness :
    reqTxnBad.transaction = true ∧
    runTxn reqTxnBad.operations storeT 0 = .error (1, .notFoundError "u") ∧
    (executeBatch reqTxnBad storeT).store = storeT ∧
    (executeBatch reqTxnBad storeT).result.successful = 0 ∧
    (executeBatch reqTxnBad storeT).result.failed = 2 ∧
    (executeBatch reqTxnBad storeT).thrown =
      some (.transactionAbortError (.notFoundError "u")) := by
  have h := txn_batch_all_or_nothing reqTxnBad storeT 1 (.notFoundError "u") rfl rfl
  exact ⟨rfl, rfl, h.1, h.2.1, h.2.2.1, h.2.2.2.2.1⟩

/-- Claim C2 counterexample: a non-transactional batch with
`continue_on_error = false` that fails at its first operation returns
`successful + failed = 1 ≠ 2 = total_operations`, although no transactional
abort happened — the claimed equation does not hold for every executed
`BatchRequest`. -/
theorem batch_counts_cex :
    reqHaltCex.transaction = false ∧
    (executeBatch reqHaltCex storeT).thrown = none ∧
    (executeBatch reqHaltCex storeT).result.successful +
        (executeBatch reqHaltCex storeT).result.failed ≠
      (executeBatch reqHaltCex storeT).result.total_operations := by
  refine ⟨rfl, rfl, ?_⟩
  decide

/-- Claim C2 (amended): for every executed `BatchRequest`,
`successful + failed + skipped = total_operations`; whenever
`transaction = true` or `continue_on_error = true` (so nothing is skipped)
`successful + failed = total_operations` holds exactly — in particular for
`transaction = false, continue_on_error = true` — and a transactional abort
has `successful = 0`. -/
theorem batch_result_counts (req : BatchRequest) (s : TableStore) :
    (executeBatch req s).result.total_operations = req.operations.length ∧
    (executeBatch req s).result.successful + (executeBatch req s).result.failed +
        (executeBatch req s).skipped.length = req.operations.length ∧
    (req.transaction = true ∨ req.continue_on_error = true →
      (executeBatch req s).result.successful + (executeBatch req s).result.failed =
        req.operations.length) ∧
    ((executeBatch req s).thrown ≠ none → (executeBatch req s).result.successful = 0) := by
  cases ht : req.transaction with
  | true =>
    cases hr : runTxn req.operations s 0 with
    | ok s2 => simp [executeBatch, ht, hr]
    | error ie =>
      obtain ⟨i, e⟩ := ie
      simp [executeBatch, ht, hr]
  | false =>
    cases hc : req.continue_on_error with
    | true =>
      have hcount := runCont_count req.operations s 0
      simp [executeBatch, ht, hc]
      omega
    | false =>
      rcases hr : runHalt req.operations s 0 with ⟨s2, succ, fe⟩
      cases fe with
      | none =>
        have hn := runHalt_none req.operations s 0 (by rw [hr])
        rw [hr] at hn
        simp only at hn
        simp [executeBatch, ht, hc, hr, hn]
      | some je =>
        obtain ⟨j, e⟩ := je
        have hs := runHalt_some req.operations s 0 j e (by rw [hr])
        rw [hr] at hs
        simp only at hs
        obtain ⟨hj, hlt, -⟩ := hs
        simp [executeBatch, ht, hc, hr, List.length_drop]
        omega

/-- Concrete instance of `batch_result_counts`: applied to the transactional
abort `reqTxnBad` (discharging both implications) the counts are
`0 + 2 = 2 = total_operations` and `successful = 0`. -/
theorem batch_result_counts_witness :
    (executeBatch reqTxnBad storeT).result.successful +
        (executeBatch reqTxnBad storeT).result.failed =
      reqTxnBad.operations.length ∧
    (executeBatch reqTxnBad storeT).result.successful = 0 := by
  have h := batch_result_counts reqTxnBad storeT
  exact ⟨h.2.2.1 (Or.inl rfl), h.2.2.2 (by decide)⟩

/-- Claim C3: for every `BatchRequest` with `transaction = false` and
`continue_on_error = false` in which some operation fails, execution stops at
the first failure — the final store is the one obtained by applying exactly
the successful prefix, every remaining operation is listed distinctly as
skipped in the outcome, and `successful + failed + skipped = total`. -/
theorem halt_batch_stops_at_first_failure (req : BatchRequest) (s : TableStore)
    (j : Nat) (e : OpError) (ht : req.transaction = false)
    (hc : req.continue_on_error = false)
    (hf : (runHalt req.operations s 0).2.2 = some (j, e)) :
    (executeBatch req s).result.successful = j ∧
    (executeBatch req s).result.failed = 1 ∧
    (executeBatch req s).skipped = (List.range req.operations.length).drop (j + 1) ∧
    (executeBatch req s).skipped.Nodup ∧
    (executeBatch req s).result.successful + (executeBatch req s).result.failed +
        (executeBatch req s).skipped.length = req.operations.length ∧
    runTxn (req.operations.take j) s 0 = .ok (executeBatch req s).store := by
  have hs := runHalt_some req.operations s 0 j e hf
  rcases hr : runHalt req.operations s 0 with ⟨s2, succ, fe⟩
  rw [hr] at hs hf
  simp only at hs hf
  subst hf
  obtain ⟨hj, hlt, htake⟩ := hs
  have hsj : succ = j := by omega
  have hnodup : ((List.range req.operations.length).drop (j + 1)).Nodup :=
    (List.nodup_range _).sublist (List.drop_sublist _ _)
  have hE : executeBatch req s =
      { store := s2,
        result := { total_operations := req.operations.length, successful := succ,
                    failed := 1, errors := [(j, e)] },
        skipped := (List.range req.operations.length).drop (j + 1),
        thrown := none } := by
    simp [executeBatch, ht, hc, hr]
  rw [hE]
  refine ⟨hsj, rfl, rfl, hnodup, ?_, by rw [← hsj]; exact htake⟩
  simp only [List.length_drop, List.length_range]
  omega

/-- Concrete instance of `halt_batch_stops_at_first_failure`: `reqHalt3` fails
at index 1, the third operation is skipped (`skipped = [2]`), the counts add
up to 3, and the final store holds only the first operation's row. -/
theorem halt_batch_witness :
    reqHalt3.transaction = false ∧ reqHalt3.continue_on_error = false ∧
    (runHalt reqHalt3.operations storeT 0).2.2 = some (1, .notFoundError "u") ∧
    (executeBatch reqHalt3 storeT).result.successful = 1 ∧
    (executeBatch reqHalt3 storeT).result.failed = 1 ∧
    (executeBatch reqHalt3 storeT).skipped = [2] ∧
    (executeBatch reqHalt3 storeT).result.successful +
        (executeBatch reqHalt3 storeT).result.failed +
        (executeBatch reqHalt3 storeT).skipped.length = 3 ∧
    runTxn (reqHalt3.operations.take 1) storeT 0 = .ok (executeBatch reqHalt3 storeT).store := by
  have h := halt_batch_stops_at_first_failure reqHalt3 storeT 1 (.notFoundError "u")
    rfl rfl (by decide)
  exact ⟨rfl, rfl, by decide, h.1, h.2.1, h.2.2.1, h.2.2.2.2.1, h.2.2.2.2.2⟩

/-- Modelled from the spec: the Job record held by the Job Registry (spec §3)
— the repository sources declare only the SDK-side `JobInfo` view; the
Registry itself is missing.  Timestamps are abstract ticks; only the fields
the state machine mutates are carried. -/
structure Job where
  status : JobStatus
  progress : Nat
  logs : List String
  result : Option String := none
  error : Option String := none
  started_at : Option Nat := none
  completed_at : Option Nat := none
deriving DecidableEq

/-- Modelled from the spec: the operations that mutate a Job record (spec
§4.2, §4.3) — worker claim, successful completion, failure (handler exception
or Registry timeout, which both take `running` to `failed`), cancellation
(direct from `pending`, cooperatively observed from `running`), and
`reportProgress`. -/
inductive JobAction
  | claim (t : Nat)
  | complete (t : Nat) (res : String)
  | failWith (t : Nat) (msg : String)
  | cancel
  | report (value : Nat) (logLine : Option String)
deriving DecidableEq

/-- Modelled from the spec: the Job state machine (spec §4.2).  Every action
is guarded; an action whose guard fails leaves the record unchanged.
`reportProgress` is applied only when the reported value is at least the
stored progress, appending the optional log line. -/
def Job.step (j : Job) : JobAction → Job
  | .claim t =>
    if j.status = .pending then { j with status := .running, started_at := some t } else j
  | .complete t res =>
    if j.status = .running then
      { j with status := .completed, result := some res, completed_at := some t }
    else j
  | .failWith t msg =>
    if j.status = .running then
      { j with status := .failed, error := some msg, completed_at := some t }
    else j
  | .cancel =>
    if j.status = .pending ∨ j.status = .running then { j with status := .cancelled } else j
  | .report v line =>
    if j.progress ≤ v then { j with progress := v, logs := j.logs ++ line.toList } else j

/-- Modelled from the spec: terminal statuses (spec §3) — completed, failed,
cancelled. -/
def JobStatus.isTerminal : JobStatus → Bool
  | .completed => true
  | .failed => true
  | .cancelled => true
  | _ => false

/-- Modelled from the spec: the allowed status transitions (spec §4.2) —
stutter, `pending → running`, `running → completed | failed`, and
`pending | running → cancelled`. -/
def allowedTransition (a b : JobStatus) : Bool :=
  a == b ||
    (a == .pending && b == .running) ||
    (a == .running && (b == .completed || b == .failed)) ||
    ((a == .pending || a == .running) && b == .cancelled)

theorem step_status_allowed (j : Job) (a : JobAction) :
    allowedTransition j.status (j.step a).status = true := by
  cases a <;> cases hst : j.status <;>
    simp [Job.step, allowedTransition, hst, apply_ite Job.status]

theorem step_status_terminal (j : Job) (a : JobAction)
    (h : j.status.isTerminal = true) : (j.step a).status = j.status := by
  cases a <;> cases hst : j.status <;>
    simp_all [Job.step, JobStatus.isTerminal, apply_ite Job.status]

/-- Claim C4: for every job and every sequence of operations applied to it,
the status only changes along `pending → running`, `running → completed`,
`running → failed`, or `pending | running → cancelled`, and no operation ever
changes the status of a job whose status is terminal (completed, failed or
cancelled). -/
theorem job_status_machine :
    (∀ (j : Job) (a : JobAction),
      allowedTransition j.status ((j.step a).status) = true) ∧
    (∀ (j : Job) (acts : List JobAction),
      j.status.isTerminal = true → (acts.foldl Job.step j).status = j.status) := by
  refine ⟨step_status_allowed, ?_⟩
  intro j acts h
  induction acts generalizing j with
  | nil => rfl
  | cons a rest ih =>
    have h2 := step_status_terminal j a h
    have h3 : (j.step a).status.isTerminal = true := by rw [h2]; exact h
    simp only [List.foldl_cons]
    rw [ih (j.step a) h3, h2]

/-- A concrete freshly created job (spec §4.2 `createJob`: `status = pending`,
`progress = 0`). -/
def jobPending : Job := { status := .pending, progress := 0, logs := [] }

/-- A concrete completed (terminal) job. -/
def jobDone : Job :=
  { status := .completed, progress := 100, logs := ["a"], result := some "ok" }

/-- Concrete instance of `job_status_machine`: claiming a pending job is an
allowed transition, and a completed job's status survives a cancel, a claim
and a progress report unchanged. -/
theorem job_status_machine_witness :
    allowedTransition jobPending.status ((jobPending.step (.claim 0)).status) = true ∧
    (([JobAction.cancel, .claim 1, .report 5 none].foldl Job.step jobDone).status =
      jobDone.status) :=
  ⟨job_status_machine.1 jobPending (.claim 0),
   job_status_machine.2 jobDone [JobAction.cancel, .claim 1, .report 5 none] (by decide)⟩

theorem step_progress_le (j : Job) (a : JobAction) :
    j.progress ≤ (j.step a).progress := by
  cases a <;> simp only [Job.step] <;> split <;> simp_all

theorem step_logs_extend (j : Job) (a : JobAction) :
    ∃ t, (j.step a).logs = j.logs ++ t := by
  cases a <;> simp only [Job.step] <;> split <;>
    first
      | exact ⟨_, rfl⟩
      | exact ⟨[], by simp⟩

theorem foldl_progress_le (j : Job) (acts : List JobAction) :
    j.progress ≤ (acts.foldl Job.step j).progress := by
  induction acts generalizing j with
  | nil => exact le_refl _
  | cons a rest ih =>
    simp only [List.foldl_cons]
    exact le_trans (step_progress_le j a) (ih (j.step a))

theorem foldl_logs_extend (j : Job) (acts : List JobAction) :
    ∃ t, (acts.foldl Job.step j).logs = j.logs ++ t := by
  induction acts generalizing j with
  | nil => exact ⟨[], (List.append_nil _).symm⟩
  | cons a rest ih =>
    simp only [List.foldl_cons]
    obtain ⟨t1, h1⟩ := step_logs_extend j a
    obtain ⟨t2, h2⟩ := ih (j.step a)
    exact ⟨t1 ++ t2, by rw [h2, h1, List.append_assoc]⟩

/-- Claim C5: a job's stored progress is monotonically non-decreasing over its
lifetime — a progress report is applied exactly when its value is at least
the stored progress and discarded otherwise, and log lines are only ever
appended, never removed or reordered. -/
theorem job_progress_monotone :
    (∀ (j : Job) (v : Nat) (line : Option String),
      (j.progress ≤ v →
        (j.step (.report v line)).progress = v ∧
        (j.step (.report v line)).logs = j.logs ++ line.toList) ∧
      (v < j.progress → j.step (.report v line) = j)) ∧
    (∀ (j : Job) (a : JobAction), j.progress ≤ (j.step a).progress) ∧
    (∀ (j : Job) (acts : List JobAction),
      j.progress ≤ (acts.foldl Job.step j).progress ∧
      ∃ t, (acts.foldl Job.step j).logs = j.logs ++ t) := by
  refine ⟨fun j v line => ⟨fun h => ?_, fun h => ?_⟩, step_progress_le,
    fun j acts => ⟨foldl_progress_le j acts, foldl_logs_extend j acts⟩⟩
  · simp [Job.step, h]
  · simp only [Job.step]
    rw [if_neg (by omega)]

/-- Concrete instance of `job_progress_monotone`: an in-range report on the
fresh job is applied and its log line appended; a stale report (5 < 100) on
the completed job is discarded; progress never decreases over a sequence. -/
theorem job_progress_monotone_witness :
    ((jobPending.step (.report 10 (some "l"))).progress = 10 ∧
      (jobPending.step (.report 10 (some "l"))).logs = jobPending.logs ++ ["l"]) ∧
    jobDone.step (.report 5 none) = jobDone ∧
    jobPending.progress ≤ ([JobAction.report 10 none].foldl Job.step jobPending).progress :=
  ⟨(job_progress_monotone.1 jobPending 10 (some "l")).1 (by decide),
   (job_progress_monotone.1 jobDone 5 none).2 (by decide),
   (job_progress_monotone.2.2 jobPending [JobAction.report 10 none]).1⟩

/-- Modelled from the spec: the Webhook record (spec §3) held by the Webhook
Dispatcher, which is not in the repository sources — the SDK declares only the
`WebhookConfig`/`WebhookInfo` views.  `max_retries` and `retry_delay_seconds`
come from `retry_config`; event names are strings; timestamps are ticks. -/
structure Webhook where
  url : String
  events : List String
  active : Bool
  secret : String
  max_retries : Nat
  retry_delay_seconds : Nat
  success_count : Nat
  failure_count : Nat
  last_triggered : Option Nat := none
deriving DecidableEq

/-- Modelled from the spec: the Dispatcher's bounded retry loop (spec §4.4)
for one event.  `ok k` tells whether the k-th delivery attempt would succeed;
`fuel` is the number of attempts still allowed.  Returns the number of
attempts actually made and whether one succeeded; no attempt is made once the
fuel is exhausted. -/
def attemptLoop (ok : Nat → Bool) : Nat → Nat → Nat × Bool
  | 0, _ => (0, false)
  | fuel + 1, k =>
    if ok k then (1, true)
    else ((attemptLoop ok fuel (k + 1)).1 + 1, (attemptLoop ok fuel (k + 1)).2)

/-- Modelled from the spec: delivery of one event to one webhook — at most
`maxRetries + 1` attempts in total (the initial attempt plus the retries,
spec §4.4, §8 Scenario D). -/
def deliverEvent (maxRetries : Nat) (ok : Nat → Bool) : Nat × Bool :=
  attemptLoop ok (maxRetries + 1) 0

/-- Modelled from the spec: the terminal-outcome counter update (spec §4.4) —
exactly one of `success_count`/`failure_count` is incremented, exactly once
per terminal outcome (success or retries-exhausted). -/
def recordOutcome (w : Webhook) (succeeded : Bool) : Webhook :=
  if succeeded then { w with success_count := w.success_count + 1 }
  else { w with failure_count := w.failure_count + 1 }

/-- Modelled from the spec: the Dispatcher's handling of one qualifying event
for one webhook (spec §4.4) — the bounded delivery attempts followed by the
single counter update. -/
def dispatchEvent (w : Webhook) (ok : Nat → Bool) : Webhook :=
  recordOutcome w (deliverEvent w.max_retries ok).2

theorem attemptLoop_le (ok : Nat → Bool) (fuel k : Nat) :
    (attemptLoop ok fuel k).1 ≤ fuel := by
  induction fuel generalizing k with
  | zero => simp [attemptLoop]
  | succ n ih =>
    simp only [attemptLoop]
    split
    · simp
    · have := ih (k + 1)
      simp only
      omega

theorem attemptLoop_exhaust (ok : Nat → Bool) (fuel k : Nat) :
    (attemptLoop ok fuel k).2 = true ∨ (attemptLoop ok fuel k).1 = fuel := by
  induction fuel generalizing k with
  | zero => right; simp [attemptLoop]
  | succ n ih =>
    simp only [attemptLoop]
    split
    · left; rfl
    · rcases ih (k + 1) with h | h
      · left; exact h
      · right; simp [h]

/-- Claim C6: for every webhook and one qualifying event, the Dispatcher makes
at most `max_retries + 1` delivery attempts in total, makes no further attempt
after exhaustion (if no attempt succeeded, exactly `max_retries + 1` attempts
were made and then delivery stopped), and increments exactly one of
`success_count`/`failure_count`, exactly once. -/
theorem webhook_retry_bound (w : Webhook) (ok : Nat → Bool) :
    (deliverEvent w.max_retries ok).1 ≤ w.max_retries + 1 ∧
    ((deliverEvent w.max_retries ok).2 = true ∨
      (deliverEvent w.max_retries ok).1 = w.max_retries + 1) ∧
    (dispatchEvent w ok).success_count + (dispatchEvent w ok).failure_count =
      w.success_count + w.failure_count + 1 ∧
    (((dispatchEvent w ok).success_count = w.success_count + 1 ∧
        (dispatchEvent w ok).failure_count = w.failure_count) ∨
      ((dispatchEvent w ok).failure_count = w.failure_count + 1 ∧
        (dispatchEvent w ok).success_count = w.success_count)) := by
  refine ⟨attemptLoop_le ok _ 0, attemptLoop_exhaust ok _ 0, ?_, ?_⟩ <;>
    cases hb : (deliverEvent w.max_retries ok).2 <;>
      simp [dispatchEvent, recordOutcome, hb] <;> omega

/-- `PixeltableConfig` from `js-sdk/src/index.ts` (`baseUrl?`, `apiKey?`). -/
structure PixeltableConfig where
  baseUrl : Option String := none
  apiKey : Option String := none
deriving DecidableEq

/-- The literal default base URL of the `PixeltableClient` constructor. -/
def defaultBaseUrl : String := "http://localhost:8000/api/v1"

/-- The private state set up by the `PixeltableClient` constructor (`baseUrl`,
`headers`); the header record is an ordered key/value list. -/
structure ClientState where
  baseUrl : String
  headers : List (String × String)
deriving DecidableEq

/-- The `PixeltableClient` constructor: `config.baseUrl || default` is a JS
truthiness check, so an empty string also falls back to the default; the
headers always hold `Content-Type: application/json`, plus
`Authorization: Bearer <apiKey>` when `config.apiKey` is truthy (present and
non-empty). -/
def mkClient (config : PixeltableConfig) : ClientState :=
  { baseUrl :=
      match config.baseUrl with
      | some b => if b = "" then defaultBaseUrl else b
      | none => defaultBaseUrl,
    headers :=
      [("Content-Type", "application/json")] ++
        (match config.apiKey with
         | some k => if k = "" then [] else [("Authorization", "Bearer " ++ k)]
         | none => []) }

/-- The parts of a `fetch` `Response` the SDK methods inspect: `ok`,
`statusText`, the `detail` field of the JSON-parsed error body, the
JSON-parsed success body (abstracted to one opaque value, also standing for
the blob/stream payloads of `downloadMedia`/`streamData`), and whether a
streaming `response.body` is present. -/
structure FetchResponse where
  ok : Bool
  statusText : String
  detail : String
  body : String
  hasBody : Bool := true
deriving DecidableEq

/-- Whether an embedded SDK call resolves (`Except.ok`) rather than throws. -/
def resolves : Except String String → Bool
  | .ok _ => true
  | .error _ => false

namespace PixeltableClient

/-- The response handling shared by every SDK method that throws
`<message><error.detail>` when `!response.ok` and otherwise resolves with the
parsed JSON body. -/
def handleDetail (msg : String) (resp : FetchResponse) : Except String String :=
  if resp.ok then .ok resp.body else .error (msg ++ resp.detail)

/-- `health()` from `js-sdk/src/index.ts`: returns `response.json()` without
inspecting `response.ok`. -/
def health (resp : FetchResponse) : Except String String :=
  .ok resp.body

/-- `listTables()`: the one method whose error message uses
`response.statusText` instead of `error.detail`. -/
def listTables (resp : FetchResponse) : Except String String :=
  if resp.ok then .ok resp.body else .error ("Failed to list tables: " ++ resp.statusText)

def createTable : FetchResponse → Except String String :=
  handleDetail "Failed to create table: "

def getTable : FetchResponse → Except String String :=
  handleDetail "Failed to get table: "

def dropTable : FetchResponse → Except String String :=
  handleDetail "Failed to drop table: "

def insertRow : FetchResponse → Except String String :=
  handleDetail "Failed to insert row: "

def insertRows : FetchResponse → Except String String :=
  handleDetail "Failed to insert rows: "

def queryRows : FetchResponse → Except String String :=
  handleDetail "Failed to query rows: "

def query : FetchResponse → Except String String :=
  handleDetail "Failed to query: "

def updateRow : FetchResponse → Except String String :=
  handleDetail "Failed to update row: "

def updateRows : FetchResponse → Except String String :=
  handleDetail "Failed to update rows: "

def deleteRow : FetchResponse → Except String String :=
  handleDetail "Failed to delete row: "

def deleteRows : FetchResponse → Except String String :=
  handleDetail "Failed to delete rows: "

def countRows : FetchResponse → Except String String :=
  handleDetail "Failed to count rows: "

def createAPIKey : FetchResponse → Except String String :=
  handleDetail "Failed to create API key: "

def listAPIKeys : FetchResponse → Except String String :=
  handleDetail "Failed to list API keys: "

def getAPIKey : FetchResponse → Except String String :=
  handleDetail "Failed to get API key: "

def revokeAPIKey : FetchResponse → Except String String :=
  handleDetail "Failed to revoke API key: "

def rotateAPIKey : FetchResponse → Except String String :=
  handleDetail "Failed to rotate API key: "

def getAPIKeyUsage : FetchResponse → Except String String :=
  handleDetail "Failed to get API key usage: "

def verifyAuth : FetchResponse → Except String String :=
  handleDetail "Failed to verify auth: "

def uploadMedia : FetchResponse → Except String String :=
  handleDetail "Failed to upload media: "

def ingestMediaFromURL : FetchResponse → Except String String :=
  handleDetail "Failed to ingest media from URL: "

def getMedia : FetchResponse → Except String String :=
  handleDetail "Failed to get media: "

def downloadMedia : FetchResponse → Except String String :=
  handleDetail "Failed to download media: "

def deleteMedia : FetchResponse → Except String String :=
  handleDetail "Failed to delete media: "

def searchMedia : FetchResponse → Except String String :=
  handleDetail "Failed to search media: "

def processMedia : FetchResponse → Except String String :=
  handleDetail "Failed to process media: "

def getProcessingJob : FetchResponse → Except String String :=
  handleDetail "Failed to get processing job: "

def cancelProcessingJob : FetchResponse → Except String String :=
  handleDetail "Failed to cancel processing job: "

def listProcessingJobs : FetchResponse → Except String String :=
  handleDetail "Failed to list processing jobs: "

def executeBatchOperations : FetchResponse → Except String String :=
  handleDetail "Failed to execute batch operations: "

def createJob : FetchResponse → Except String String :=
  handleDetail "Failed to create job: "

def getJob : FetchResponse → Except String String :=
  handleDetail "Failed to get job: "

def listJobs : FetchResponse → Except String String :=
  handleDetail "Failed to list jobs: "

def cancelJob : FetchResponse → Except String String :=
  handleDetail "Failed to cancel job: "

def importData : FetchResponse → Except String String :=
  handleDetail "Failed to import data: "

def exportData : FetchResponse → Except String String :=
  handleDetail "Failed to export data: "

def createComputedColumn : FetchResponse → Except String String :=
  handleDetail "Failed to create computed column: "

def listComputedColumns : FetchResponse → Except String String :=
  handleDetail "Failed to list computed columns: "

def deleteComputedColumn : FetchResponse → Except String String :=
  handleDetail "Failed to delete computed column: "

def registerUDF : FetchResponse → Except String String :=
  handleDetail "Failed to register UDF: "

def listUDFs : FetchResponse → Except String String :=
  handleDetail "Failed to list UDFs: "

def registerWebhook : FetchResponse → Except String String :=
  handleDetail "Failed to register webhook: "

def listWebhooks : FetchResponse → Except String String :=
  handleDetail "Failed to list webhooks: "

def deleteWebhook : FetchResponse → Except String String :=
  handleDetail "Failed to delete webhook: "

/-- `streamData(...)`: throws on `!ok`; on an ok response without a `body`
stream throws `No response body for streaming`; otherwise resolves with the
stream. -/
def streamData (resp : FetchResponse) : Except String String :=
  if resp.ok then
    if resp.hasBody then .ok resp.body else .error "No response body for streaming"
  else .error ("Failed to stream data: " ++ resp.detail)

end PixeltableClient

/-- `JobInfo` from `js-sdk/src/index.ts` (lines 280–293): the Job record
returned by `createJob`, `getJob`, `listJobs`, `importData` and `exportData`.
`parameters`/`result` payloads (`Record<string, any>`) are abstracted to
key/value string pairs. -/
structure JobInfo where
  job_id : String
  job_type : JobType
  status : JobStatus
  progress : Nat
  parameters : List (String × String)
  result : Option (List (String × String)) := none
  error : Option String := none
  created_at : String
  started_at : Option String := none
  completed_at : Option String := none
  webhook_url : Option String := none
  logs : List String
deriving DecidableEq

/-- The field names of the source `JobInfo` interface, in declaration order. -/
def jobInfoFieldNames : List String :=
  ["job_id", "job_type", "status", "progress", "parameters", "result", "error",
   "created_at", "started_at", "completed_at", "webhook_url", "logs"]

/-- `JobRequest` from `js-sdk/src/index.ts` (lines 271–278). -/
structure JobRequest where
  job_type : JobType
  parameters : List (String × String)
  priority : Option Nat := none
  webhook_url : Option String := none
  webhook_events : Option (List String) := none
  timeout_seconds : Option Nat := none
deriving DecidableEq

/-- The field names of the source `JobRequest` interface, in declaration
order. -/
def jobRequestFieldNames : List String :=
  ["job_type", "parameters", "priority", "webhook_url", "webhook_events",
   "timeout_seconds"]

/-- The field names of the spec's Job data model (spec §3), following the
spec's words for the refinement comparison with `jobInfoFieldNames`; the
spec's `id` is written as the source's `job_id`. -/
def specJobFieldNames : List String :=
  ["job_id", "job_type", "status", "progress", "parameters", "result", "error",
   "priority", "created_at", "started_at", "completed_at", "webhook_url",
   "webhook_events", "timeout_seconds", "logs"]

/-- The `JobInfo` embedding is determined exactly by the fields listed in
`jobInfoFieldNames`: two records agreeing on all twelve are equal. -/
theorem jobInfo_fields_determine (a b : JobInfo)
    (h1 : a.job_id = b.job_id) (h2 : a.job_type = b.job_type)
    (h3 : a.status = b.status) (h4 : a.progress = b.progress)
    (h5 : a.parameters = b.parameters) (h6 : a.result = b.result)
    (h7 : a.error = b.error) (h8 : a.created_at = b.created_at)
    (h9 : a.started_at = b.started_at) (h10 : a.completed_at = b.completed_at)
    (h11 : a.webhook_url = b.webhook_url) (h12 : a.logs = b.logs) : a = b := by
  cases a
  cases b
  simp_all

/-- Claim C8 counterexample: the claim requires every exposed Job record to
carry `priority` (and `webhook_events`, `timeout_seconds`), but the source
`JobInfo` interface — the return type of `createJob`, `getJob` and `listJobs`
— has no such fields; they exist only on `JobRequest`. -/
theorem jobinfo_missing_fields_cex :
    ("priority" ∈ specJobFieldNames ∧ ¬ "priority" ∈ jobInfoFieldNames) ∧
    ("webhook_events" ∈ specJobFieldNames ∧ ¬ "webhook_events" ∈ jobInfoFieldNames) ∧
    ("timeout_seconds" ∈ specJobFieldNames ∧ ¬ "timeout_seconds" ∈ jobInfoFieldNames) := by
  decide

/-- Claim C8 (amended): every exposed Job record carries exactly the `JobInfo`
fields — all the spec's Job-model fields except `priority`, `webhook_events`
and `timeout_seconds`, which are accepted on `JobRequest` but not echoed back
on `JobInfo`. -/
theorem jobinfo_fields_amended :
    (specJobFieldNames.all (fun f =>
      jobInfoFieldNames.contains f || f == "priority" || f == "webhook_events" ||
        f == "timeout_seconds") = true) ∧
    (jobInfoFieldNames.all (fun f => specJobFieldNames.contains f) = true) ∧
    jobInfoFieldNames.contains "priority" = false ∧
    jobInfoFieldNames.contains "webhook_events" = false ∧
    jobInfoFieldNames.contains "timeout_seconds" = false ∧
    jobRequestFieldNames.contains "priority" = true ∧
    jobRequestFieldNames.contains "webhook_events" = true ∧
    jobRequestFieldNames.contains "timeout_seconds" = true := by
  decide

/-- A concrete request with an empty operation list and default (false)
flags. -/
def reqEmpty : BatchRequest := { operations := [] }

/-- A concrete ok fetch response. -/
def respOk : FetchResponse :=
  { ok := true, statusText := "OK", detail := "D", body := "B" }

/-- A concrete failed fetch response. -/
def respBad : FetchResponse :=
  { ok := false, statusText := "Internal Server Error", detail := "D", body := "B" }

/-- Claim C7: per-operation errors of a non-transactional batch are captured
in the returned `BatchResult` and never thrown (`thrown = none`), and the
client-side `executeBatchOperations` resolves with the parsed `BatchResult`
body for every ok response, throwing only when the HTTP response is not ok. -/
theorem non_txn_errors_captured (req : BatchRequest) (s : TableStore)
    (resp : FetchResponse) :
    (req.transaction = false → (executeBatch req s).thrown = none) ∧
    (resp.ok = true → PixeltableClient.executeBatchOperations resp = .ok resp.body) ∧
    (resp.ok = false →
      PixeltableClient.executeBatchOperations resp =
        .error ("Failed to execute batch operations: " ++ resp.detail)) := by
  refine ⟨fun ht => ?_, fun h => ?_, fun h => ?_⟩
  · cases hc : req.continue_on_error with
    | true => simp [executeBatch, ht, hc]
    | false =>
      rcases hr : runHalt req.operations s 0 with ⟨s2, succ, fe⟩
      cases fe with
      | none => simp [executeBatch, ht, hc, hr]
      | some je =>
        obtain ⟨j, e⟩ := je
        simp [executeBatch, ht, hc, hr]
  · simp [PixeltableClient.executeBatchOperations, PixeltableClient.handleDetail, h]
  · simp [PixeltableClient.executeBatchOperations, PixeltableClient.handleDetail, h]

/-- Concrete instance of `non_txn_errors_captured` at an empty
non-transactional batch, an ok response and a failed response. -/
theorem non_txn_errors_captured_witness :
    (executeBatch reqEmpty storeT).thrown = none ∧
    PixeltableClient.executeBatchOperations respOk = .ok "B" ∧
    PixeltableClient.executeBatchOperations respBad =
      .error ("Failed to execute batch operations: " ++ "D") :=
  ⟨(non_txn_errors_captured reqEmpty storeT respOk).1 rfl,
   (non_txn_errors_captured reqEmpty storeT respOk).2.1 rfl,
   (non_txn_errors_captured reqEmpty storeT respBad).2.2 rfl⟩

/-- Claim C9 counterexample: with `config = { baseUrl: "", apiKey: "" }` both
options are provided, yet no `Authorization` header is set and the default
base URL is used — JS truthiness treats the provided empty string like an
absent option, refuting both "if and only if provided" and "exactly when
absent". -/
theorem client_ctor_cex :
    (PixeltableConfig.mk (some "") (some "")).apiKey.isSome = true ∧
    (mkClient (PixeltableConfig.mk (some "") (some ""))).headers.lookup "Authorization" =
      none ∧
    (PixeltableConfig.mk (some "") (some "")).baseUrl.isSome = true ∧
    (mkClient (PixeltableConfig.mk (some "") (some ""))).baseUrl = defaultBaseUrl := by
  decide

/-- Claim C9 (amended): the constructor always sets
`Content-Type: application/json`; it sets `Authorization: Bearer <apiKey>` if
and only if `apiKey` is provided and non-empty; and it uses the default base
URL exactly when `baseUrl` is absent, empty, or itself the default. -/
theorem client_ctor_amended (config : PixeltableConfig) :
    (mkClient config).headers.lookup "Content-Type" = some "application/json" ∧
    ((mkClient config).headers.lookup "Authorization" ≠ none ↔
      ∃ k, config.apiKey = some k ∧ k ≠ "") ∧
    (∀ k, config.apiKey = some k → k ≠ "" →
      (mkClient config).headers.lookup "Authorization" = some ("Bearer " ++ k)) ∧
    ((mkClient config).baseUrl = defaultBaseUrl ↔
      (config.baseUrl = none ∨ config.baseUrl = some "" ∨
        config.baseUrl = some defaultBaseUrl)) ∧
    (∀ b, config.baseUrl = some b → b ≠ "" → (mkClient config).baseUrl = b) := by
  obtain ⟨ob, oa⟩ := config
  refine ⟨?_, ?_, ?_, ?_, ?_⟩
  · rcases oa with _ | k
    · simp [mkClient, List.lookup]
    · by_cases hk : k = "" <;> simp [mkClient, hk, List.lookup]
  · rcases oa with _ | k
    · simp [mkClient, List.lookup]
    · by_cases hk : k = "" <;> simp [mkClient, hk, List.lookup]
  · rcases oa with _ | k
    · intro k hk; simp at hk
    · intro k2 hk2 hne
      obtain rfl : k = k2 := by simpa using hk2
      simp [mkClient, hne, List.lookup]
  · rcases ob with _ | b
    · simp [mkClient]
    · by_cases hb : b = "" <;> simp [mkClient, hb]
  · rcases ob with _ | b
    · intro b hb; simp at hb
    · intro b2 hb2 hne
      obtain rfl : b = b2 := by simpa using hb2
      simp [mkClient, hne]

/-- Concrete instance of `client_ctor_amended`: with a non-empty key and a
non-empty base URL, the `Authorization` header and the given base URL are
used. -/
theorem client_ctor_amended_witness :
    (mkClient (PixeltableConfig.mk (some "http://x/") (some "K"))).headers.lookup
        "Authorization" = some ("Bearer " ++ "K") ∧
    (mkClient (PixeltableConfig.mk (some "http://x/") (some "K"))).baseUrl = "http://x/" :=
  ⟨(client_ctor_amended (PixeltableConfig.mk (some "http://x/") (some "K"))).2.2.1
      "K" rfl (by decide),
   (client_ctor_amended (PixeltableConfig.mk (some "http://x/") (some "K"))).2.2.2.2
      "http://x/" rfl (by decide)⟩

/-- Claim C10: `health()` never inspects `response.ok` — it resolves with the
JSON-parsed body for every response, including error statuses — unlike every
other `PixeltableClient` method, each of which throws an `Error` whenever the
response is not ok. -/
theorem health_never_throws_unlike_rest :
    (∀ resp : FetchResponse, PixeltableClient.health resp = .ok resp.body) ∧
    (∀ resp : FetchResponse, resp.ok = false →
      resolves (PixeltableClient.listTables resp) = false ∧
      resolves (PixeltableClient.createTable resp) = false ∧
      resolves (PixeltableClient.getTable resp) = false ∧
      resolves (PixeltableClient.dropTable resp) = false ∧
      resolves (PixeltableClient.insertRow resp) = false ∧
      resolves (PixeltableClient.insertRows resp) = false ∧
      resolves (PixeltableClient.queryRows resp) = false ∧
      resolves (PixeltableClient.query resp) = false ∧
      resolves (PixeltableClient.updateRow resp) = false ∧
      resolves (PixeltableClient.updateRows resp) = false ∧
      resolves (PixeltableClient.deleteRow resp) = false ∧
      resolves (PixeltableClient.deleteRows resp) = false ∧
      resolves (PixeltableClient.countRows resp) = false ∧
      resolves (PixeltableClient.createAPIKey resp) = false ∧
      resolves (PixeltableClient.listAPIKeys resp) = false ∧
      resolves (PixeltableClient.getAPIKey resp) = false ∧
      resolves (PixeltableClient.revokeAPIKey resp) = false ∧
      resolves (PixeltableClient.rotateAPIKey resp) = false ∧
      resolves (PixeltableClient.getAPIKeyUsage resp) = false ∧
      resolves (PixeltableClient.verifyAuth resp) = false ∧
      resolves (PixeltableClient.uploadMedia resp) = false ∧
      resolves (PixeltableClient.ingestMediaFromURL resp) = false ∧
      resolves (PixeltableClient.getMedia resp) = false ∧
      resolves (PixeltableClient.downloadMedia resp) = false ∧
      resolves (PixeltableClient.deleteMedia resp) = false ∧
      resolves (PixeltableClient.searchMedia resp) = false ∧
      resolves (PixeltableClient.processMedia resp) = false ∧
      resolves (PixeltableClient.getProcessingJob resp) = false ∧
      resolves (PixeltableClient.cancelProcessingJob resp) = false ∧
      resolves (PixeltableClient.listProcessingJobs resp) = false ∧
      resolves (PixeltableClient.executeBatchOperations resp) = false ∧
      resolves (PixeltableClient.createJob resp) = false ∧
      resolves (PixeltableClient.getJob resp) = false ∧
      resolves (PixeltableClient.listJobs resp) = false ∧
      resolves (PixeltableClient.cancelJob resp) = false ∧
      resolves (PixeltableClient.importData resp) = false ∧
      resolves (PixeltableClient.exportData resp) = false ∧
      resolves (PixeltableClient.createComputedColumn resp) = false ∧
      resolves (PixeltableClient.listComputedColumns resp) = false ∧
      resolves (PixeltableClient.deleteComputedColumn resp) = false ∧
      resolves (PixeltableClient.registerUDF resp) = false ∧
      resolves (PixeltableClient.listUDFs resp) = false ∧
      resolves (PixeltableClient.registerWebhook resp) = false ∧
      resolves (PixeltableClient.listWebhooks resp) = false ∧
      resolves (PixeltableClient.deleteWebhook resp) = false ∧
      resolves (PixeltableClient.streamData resp) = false) := by
  constructor
  · intro resp
    rfl
  · intro resp h
    simp [PixeltableClient.listTables, PixeltableClient.createTable,
      PixeltableClient.getTable, PixeltableClient.dropTable,
      PixeltableClient.insertRow, PixeltableClient.insertRows,
      PixeltableClient.queryRows, PixeltableClient.query,
      PixeltableClient.updateRow, PixeltableClient.updateRows,
      PixeltableClient.deleteRow, PixeltableClient.deleteRows,
      PixeltableClient.countRows, PixeltableClient.createAPIKey,
      PixeltableClient.listAPIKeys, PixeltableClient.getAPIKey,
      PixeltableClient.revokeAPIKey, PixeltableClient.rotateAPIKey,
      PixeltableClient.getAPIKeyUsage, PixeltableClient.verifyAuth,
      PixeltableClient.uploadMedia, PixeltableClient.ingestMediaFromURL,
      PixeltableClient.getMedia, PixeltableClient.downloadMedia,
      PixeltableClient.deleteMedia, PixeltableClient.searchMedia,
      PixeltableClient.processMedia, PixeltableClient.getProcessingJob,
      PixeltableClient.cancelProcessingJob, PixeltableClient.listProcessingJobs,
      PixeltableClient.executeBatchOperations, PixeltableClient.createJob,
      PixeltableClient.getJob, PixeltableClient.listJobs,
      PixeltableClient.cancelJob, PixeltableClient.importData,
      PixeltableClient.exportData, PixeltableClient.createComputedColumn,
      PixeltableClient.listComputedColumns, PixeltableClient.deleteComputedColumn,
      PixeltableClient.registerUDF, PixeltableClient.listUDFs,
      PixeltableClient.registerWebhook, PixeltableClient.listWebhooks,
      PixeltableClient.deleteWebhook, PixeltableClient.streamData,
      PixeltableClient.handleDetail, resolves, h]

/-- Concrete instance of `health_never_throws_unlike_rest`: on the failed
response `respBad`, `health` still resolves with the body while `listTables`
and `getJob` throw. -/
theorem health_never_throws_witness :
    PixeltableClient.health respBad = .ok "B" ∧
    resolves (PixeltableClient.listTables respBad) = false ∧
    resolves (PixeltableClient.getJob respBad) = false :=
  ⟨health_never_throws_unlike_rest.1 respBad,
   (health_never_throws_unlike_rest.2 respBad rfl).1,
   (health_never_throws_unlike_rest.2 respBad rfl).2.2.2.2.2.2.2.2.2.2.2.2.2.2.2.2.2.2.2.2.2.2.2.2.2.2.2.2.2.2.2.2.1⟩
